import Mathlib

/-
  Shallow embedding of the capture-and-transcription pipeline of
  voice_transcriber.py (class VoiceTranscriberApp).

  Python strings are modelled as lists of characters (PyStr), so that
  str.strip() has a tractable embedding; byte payloads are lists of
  naturals; the tkinter/clipboard/thread effects are modelled as fields
  of an explicit application state threaded through the functions.
  The background capture loop is modelled as a fold over a finite list
  of environment events (the outcome of each listen attempt and, for a
  captured clip, the outcomes of the staging and engine sub-steps).
-/

namespace VoiceTranscriber

/-- Python strings as lists of characters. -/
abbrev PyStr : Type := List Char

/-- Embedding of Python str.strip(): drop whitespace from both ends. -/
def pyStrip (s : PyStr) : PyStr :=
  ((List.dropWhile Char.isWhitespace s).reverse.dropWhile Char.isWhitespace).reverse

/-- One captured utterance as produced by recognizer.listen: an
AudioData value with sample_rate, sample_width and frame_data.  The
same shape is used for the dict entries of audio_buffer. -/
structure AudioClip where
  sample_rate : Int
  sample_width : Nat
  frame_data : List Nat
deriving DecidableEq, Repr

/-- The mutable application state of VoiceTranscriberApp that the
claims are about: recording flag, widget texts, the audio buffer, the
visible text area, the system clipboard, and the auto-copy checkbox.
The error_shown flag records that messagebox.showerror was posted. -/
structure AppState where
  is_recording : Bool
  record_btn_text : String
  indicator_fill : String
  status : String
  audio_buffer : List AudioClip
  text_area : PyStr
  clipboard : PyStr
  auto_copy : Bool
  language : String
  error_shown : Bool
deriving DecidableEq, Repr

/-- Format validity of a clip as checked at voice_transcriber.py lines
372-378 and 508-520: sample width in {1,2,4} and rate in (0, 192000]. -/
def clipFormatValid (c : AudioClip) : Prop :=
  (c.sample_width = 1 ∨ c.sample_width = 2 ∨ c.sample_width = 4)
    ∧ 0 < c.sample_rate ∧ c.sample_rate ≤ 192000

instance (c : AudioClip) : Decidable (clipFormatValid c) := by
  unfold clipFormatValid
  infer_instance

/-- get_whisper_language_code: dict lookup with default "en". -/
def get_whisper_language_code (lang : String) : String :=
  if lang = "ru-RU" then "ru"
  else if lang = "en-US" then "en"
  else if lang = "de-DE" then "de"
  else if lang = "fr-FR" then "fr"
  else if lang = "es-ES" then "es"
  else "en"

/-- copy_to_clipboard: strip the text area; copy it if nonempty (with a
status message only when show_message), otherwise warn only when
show_message. -/
def copy_to_clipboard (show_message : Bool) (s : AppState) : AppState :=
  if pyStrip s.text_area ≠ [] then
    { s with clipboard := pyStrip s.text_area,
             status := if show_message then "Текст скопирован в буфер обмена!" else s.status }
  else
    s

/-- The text-area update of append_text (lines 587-592): the new text
is appended, with a single separating space exactly when the stripped
current content is nonempty. -/
def appendTextArea (area t : PyStr) : PyStr :=
  if pyStrip area ≠ [] then area ++ (' ' :: t) else area ++ t

/-- append_text: update the text area, then auto-copy when enabled,
then set the status line. -/
def append_text (t : PyStr) (s : AppState) : AppState :=
  { (if s.auto_copy then
       copy_to_clipboard false { s with text_area := appendTextArea s.text_area t }
     else
       { s with text_area := appendTextArea s.text_area t }) with
    status := "Текст добавлен! Слушаю..." }

/-- display_transcription_result: clear the text area and insert the
combined text, copy it to the clipboard unconditionally, and reset
status, button and indicator. -/
def display_transcription_result (t : PyStr) (s : AppState) : AppState :=
  { s with text_area := t,
           clipboard := t,
           status := "Транскрибация завершена! Результат скопирован в буфер обмена.",
           record_btn_text := "Начать запись",
           indicator_fill := "gray" }

/-- stop_recording: reset the session to idle. -/
def stop_recording (s : AppState) : AppState :=
  { s with is_recording := false,
           record_btn_text := "Начать запись",
           indicator_fill := "gray",
           status := "Готов к записи" }

/-- start_recording: the microphone-open guard (micOk is the outcome of
constructing SafeMicrophone); on failure an error box is shown and
nothing else changes; on success the recording state is set up and the
audio buffer is cleared before the worker thread starts. -/
def start_recording (micOk : Bool) (s : AppState) : AppState :=
  if micOk then
    { s with is_recording := true,
             record_btn_text := "Закончить запись",
             indicator_fill := "red",
             status := "Запись... Говорите в микрофон",
             audio_buffer := [] }
  else
    { s with error_shown := true }

/-- finish_recording: flip the flag off and show the processing state;
the combined transcription then runs on its own thread. -/
def finish_recording (s : AppState) : AppState :=
  { s with is_recording := false,
           record_btn_text := "Обработка...",
           indicator_fill := "yellow",
           status := "Обработка записи..." }

/-- clear_text: empty the text area, the audio buffer and the clipboard. -/
def clear_text (s : AppState) : AppState :=
  { s with text_area := [],
           audio_buffer := [],
           clipboard := [],
           status := "Текст очищен" }

/-- Outcome of writing the staging WAV (wave.open block, lines 383-393):
either it succeeds or raises struct.error. -/
inductive WavOutcome where
  | ok
  | structError
deriving DecidableEq, Repr

/-- Outcome of creating the temporary staging file (lines 396-409):
created and written; NamedTemporaryFile itself failed (no file on
disk); the file was created but the write into it raised (the except
at line 401 then continues without any unlink, so the file stays on
disk); or created and written but vanished before the existence check
at line 407. -/
inductive TempOutcome where
  | ok
  | createFail
  | writeFail
  | vanished
deriving DecidableEq, Repr

/-- Outcome of a whisper_model.transcribe invocation: text, a
FileNotFoundError, or another exception carrying its message and
whether the message pattern-matches a missing-file error. -/
inductive TransResult where
  | ok (text : PyStr)
  | fileNotFound
  | err (msg : String) (looksMissingFile : Bool)
deriving DecidableEq, Repr

/-- Loop control at the end of one iteration of the while loop. -/
inductive LoopCtl where
  | cont
  | brk
deriving DecidableEq, Repr

/-- Environment event for one iteration of the record_audio while loop:
what recognizer.listen produced (lines 455-484 handlers), and for a
captured clip the outcomes of the staging and engine sub-steps. -/
inductive IterEvent where
  | listenTimeout
  | listenUnknown
  | listenRequestError
  | listenOSError
  | listenOtherError
  | captured (clip : AudioClip) (wav : WavOutcome) (tmp : TempOutcome) (tr : TransResult)
deriving DecidableEq, Repr

/-- Result of one loop iteration: the state after it, the loop control,
whether the engine was invoked, whether a temporary staging file was
created, and whether one is left behind after the iteration. -/
structure IterResult where
  state : AppState
  ctl : LoopCtl
  engineCalled : Bool
  tempCreated : Bool
  tempLeft : Bool
deriving DecidableEq, Repr

/-- Processing of one captured clip (lines 363-453): format validation,
WAV staging, temporary file, engine invocation, and the finally block
that unlinks the temporary file on every exit path of the inner try.
The temporary-file creation block (lines 396-403) is not covered by
that finally: when the write into the just-created file fails, the
except at line 401 continues with no unlink and the file is left
behind (tempLeft is true on that path only). -/
def process_clip (c : AudioClip) (wav : WavOutcome) (tmp : TempOutcome)
    (tr : TransResult) (s : AppState) : IterResult :=
  if ¬ (c.sample_width = 1 ∨ c.sample_width = 2 ∨ c.sample_width = 4) then
    ⟨s, .cont, false, false, false⟩
  else if c.sample_rate ≤ 0 ∨ 192000 < c.sample_rate then
    ⟨s, .cont, false, false, false⟩
  else
    match wav with
    | .structError => ⟨s, .cont, false, false, false⟩
    | .ok =>
      match tmp with
      | .createFail => ⟨s, .cont, false, false, false⟩
      | .writeFail => ⟨s, .cont, false, true, true⟩
      | .vanished => ⟨s, .cont, false, true, false⟩
      | .ok =>
        match tr with
        | .ok t => ⟨append_text t s, .cont, true, true, false⟩
        | .fileNotFound =>
            ⟨{ s with status := "Ошибка: отсутствует необходимый компонент (ffmpeg), см. логи..." },
             .cont, true, true, false⟩
        | .err _ true =>
            ⟨{ s with status := "Ошибка: отсутствует необходимый компонент (ffmpeg), см. логи..." },
             .cont, true, true, false⟩
        | .err _ false =>
            ⟨{ s with status := "Ошибка транскрибации, продолжаю..." },
             .cont, true, true, false⟩

/-- One iteration of the while loop of record_audio (lines 349-484):
the status line is set at the top; the outer except clauses classify
the listen-phase outcomes; a captured clip goes to process_clip. -/
def record_audio_iter (ev : IterEvent) (s : AppState) : IterResult :=
  let s0 : AppState := { s with status := "Слушаю... Говорите" }
  match ev with
  | .listenTimeout => ⟨s0, .cont, false, false, false⟩
  | .listenUnknown =>
      ⟨{ s0 with status := "Речь не распознана, продолжаю..." }, .cont, false, false, false⟩
  | .listenRequestError =>
      ⟨{ s0 with status := "Ошибка сервиса распознавания, продолжаю..." }, .cont, false, false, false⟩
  | .listenOSError => ⟨{ s0 with error_shown := true }, .brk, false, false, false⟩
  | .listenOtherError => ⟨{ s0 with error_shown := true }, .brk, false, false, false⟩
  | .captured c wav tmp tr =>
      process_clip c wav tmp tr { s0 with status := "Распознавание..." }

/-- The while loop of record_audio over a finite event schedule; the
pair also counts the iterations whose body ran. -/
def record_audio_loop : List IterEvent → AppState → AppState × Nat
  | [], s => (s, 0)
  | ev :: rest, s =>
    if s.is_recording then
      let r := record_audio_iter ev s
      match r.ctl with
      | .brk => (r.state, 1)
      | .cont =>
        let p := record_audio_loop rest r.state
        (p.1, p.2 + 1)
    else (s, 0)

/-- Result of the whole worker function: final state and number of loop
iterations that ran. -/
structure RunResult where
  state : AppState
  iters : Nat
deriving DecidableEq, Repr

/-- record_audio (lines 329-487): ambient-noise calibration first
(calibOk is the outcome of opening the device and calibrating); on
failure the error is reported, stop_recording is posted and the worker
returns without entering the loop; otherwise the loop runs and
stop_recording is posted at the end. -/
def record_audio (calibOk : Bool) (evs : List IterEvent) (s : AppState) : RunResult :=
  let s1 : AppState := { s with status := "Калибровка микрофона..." }
  if calibOk then
    let p := record_audio_loop evs s1
    ⟨stop_recording p.1, p.2⟩
  else
    ⟨stop_recording { s1 with error_shown := true }, 0⟩

/-- The frame-concatenation loop of transcribe_audio_buffer (lines
528-534): write the frame data of every frame whose parameters match
the first frame, count a logged warning for every mismatched frame. -/
def combineFrames (r : Int) (w : Nat) (buf : List AudioClip) : List Nat × Nat :=
  buf.foldl
    (fun acc f =>
      if f.sample_rate ≠ r ∨ f.sample_width ≠ w then (acc.1, acc.2 + 1)
      else (acc.1 ++ f.frame_data, acc.2))
    ([], 0)

/-- Outcome of staging the combined WAV to a temporary file in
transcribe_audio_buffer (lines 537-539): success; NamedTemporaryFile
failing before any file exists; or the write failing after
NamedTemporaryFile created the file on disk — then temp_filename is
never bound, the finally's locals() guard at line 565 skips the
unlink, and the file is left behind.  The failure constructors carry
the exception message shown by the generic handler. -/
inductive StageOutcome where
  | ok
  | createFail (msg : String)
  | writeFail (msg : String)
deriving DecidableEq, Repr

/-- Result of transcribe_audio_buffer: the state after it, whether the
engine was invoked and on which staged input (rate, width, bytes),
whether a temporary file was created and whether one is left behind,
and how many mismatched-frame warnings were logged. -/
structure TABResult where
  state : AppState
  engineCalled : Bool
  engineInput : Option (Int × Nat × List Nat)
  tempCreated : Bool
  tempLeft : Bool
  dropWarnings : Nat
deriving DecidableEq, Repr

/-- Button and indicator reset posted on the early-return and error
paths of transcribe_audio_buffer. -/
def resetControls (s : AppState) : AppState :=
  { s with record_btn_text := "Начать запись", indicator_fill := "gray" }

/-- transcribe_audio_buffer (lines 489-568): empty-buffer early return;
first-frame format validation; concatenation of matching frames;
staging of the combined WAV to a temporary file (which can fail, see
StageOutcome); one engine invocation over the staged file; result
display or error status; the finally block unlinks the temporary file
whenever temp_filename was bound — i.e. on every path except the
write-failure staging path, where the created file is left behind.
The engine is the transcription oracle, a function of the staged rate,
width and bytes. -/
def transcribe_audio_buffer (engine : Int → Nat → List Nat → TransResult)
    (staging : StageOutcome) (s : AppState) : TABResult :=
  match s.audio_buffer with
  | [] =>
    ⟨resetControls { s with status := "Нет аудио для транскрибации" },
     false, none, false, false, 0⟩
  | first :: _ =>
    if ¬ (first.sample_width = 1 ∨ first.sample_width = 2 ∨ first.sample_width = 4) then
      ⟨resetControls { s with status := "Неподдерживаемый формат аудио" },
       false, none, false, false, 0⟩
    else if first.sample_rate ≤ 0 ∨ 192000 < first.sample_rate then
      ⟨resetControls { s with status := "Неподдерживаемый формат аудио" },
       false, none, false, false, 0⟩
    else
      match staging with
      | .createFail msg =>
        ⟨resetControls { s with status := "Ошибка транскрибации: " ++ msg },
         false, none, false, false,
         (combineFrames first.sample_rate first.sample_width s.audio_buffer).2⟩
      | .writeFail msg =>
        ⟨resetControls { s with status := "Ошибка транскрибации: " ++ msg },
         false, none, true, true,
         (combineFrames first.sample_rate first.sample_width s.audio_buffer).2⟩
      | .ok =>
        match engine first.sample_rate first.sample_width
            (combineFrames first.sample_rate first.sample_width s.audio_buffer).1 with
        | .ok t =>
          ⟨display_transcription_result t { s with status := "Выполняется транскрибация..." },
           true,
           some (first.sample_rate, first.sample_width,
             (combineFrames first.sample_rate first.sample_width s.audio_buffer).1),
           true, false,
           (combineFrames first.sample_rate first.sample_width s.audio_buffer).2⟩
        | .fileNotFound =>
          ⟨resetControls
             { s with status := "Ошибка: отсутствует необходимый компонент (ffmpeg), см. логи..." },
           true,
           some (first.sample_rate, first.sample_width,
             (combineFrames first.sample_rate first.sample_width s.audio_buffer).1),
           true, false,
           (combineFrames first.sample_rate first.sample_width s.audio_buffer).2⟩
        | .err msg _ =>
          ⟨resetControls { s with status := "Ошибка транскрибации: " ++ msg },
           true,
           some (first.sample_rate, first.sample_width,
             (combineFrames first.sample_rate first.sample_width s.audio_buffer).1),
           true, false,
           (combineFrames first.sample_rate first.sample_width s.audio_buffer).2⟩

/-- Modelled from the spec: the buffer-mode capture step, which is
present only in the buffer-then-transcribe variant of the repository
and is missing from src/ (the variant there transcribes incrementally
and never appends to audio_buffer).  Per the spec, each captured clip
passes the same format validation as the incremental path and is then
accumulated onto the session audio buffer; invalid clips are skipped. -/
def buffer_capture_step (s : AppState) (c : AudioClip) : AppState :=
  if clipFormatValid c then { s with audio_buffer := s.audio_buffer ++ [c] } else s

/-- Modelled from the spec: one whole buffer-mode session — start
(clearing the buffer), capture a sequence of clips into the buffer,
stop, and run the single combined transcription of src/
(transcribe_audio_buffer) with the given staging outcome. -/
def buffer_mode_session (engine : Int → Nat → List Nat → TransResult)
    (staging : StageOutcome) (clips : List AudioClip) (s : AppState) : TABResult :=
  let s1 := start_recording true s
  let s2 := clips.foldl buffer_capture_step s1
  transcribe_audio_buffer engine staging (finish_recording s2)

/-- Space-joined concatenation of a list of strings. -/
def spaceJoin : List PyStr → PyStr
  | [] => []
  | [t] => t
  | t :: u :: r => t ++ (' ' :: spaceJoin (u :: r))

/-- Tail form of the space join: each element preceded by one space. -/
def spaceTail : List PyStr → PyStr
  | [] => []
  | t :: r => (' ' :: t) ++ spaceTail r

/-- Concatenation of the frame data of a list of frames. -/
def concatData : List AudioClip → List Nat
  | [] => []
  | f :: r => f.frame_data ++ concatData r

/-! ### Helper lemmas -/

lemma pyStrip_eq_nil_iff (s : PyStr) :
    pyStrip s = [] ↔ ∀ c ∈ s, c.isWhitespace := by
  unfold pyStrip
  constructor
  · intro h c hc
    have h1 : ∀ x ∈ (List.dropWhile Char.isWhitespace s).reverse, x.isWhitespace := by
      have := List.reverse_eq_nil_iff.mp h
      exact List.dropWhile_eq_nil_iff.mp this
    have h2 : ∀ x ∈ List.dropWhile Char.isWhitespace s, x.isWhitespace := by
      intro x hx
      exact h1 x (List.mem_reverse.mpr hx)
    have hsplit := List.takeWhile_append_dropWhile Char.isWhitespace s
    rw [← hsplit] at hc
    rcases List.mem_append.mp hc with htk | hdr
    · exact List.mem_takeWhile_imp htk
    · exact h2 c hdr
  · intro h
    rw [List.reverse_eq_nil_iff, List.dropWhile_eq_nil_iff]
    intro x hx
    exact h x ((List.dropWhile_sublist Char.isWhitespace).mem (List.mem_reverse.mp hx))

lemma pyStrip_append_ne_nil (a b : PyStr) (h : pyStrip a ≠ []) :
    pyStrip (a ++ b) ≠ [] := by
  intro hcontra
  apply h
  rw [pyStrip_eq_nil_iff] at hcontra ⊢
  intro c hc
  exact hcontra c (List.mem_append.mpr (Or.inl hc))

lemma foldl_appendTextArea (ts : List PyStr) :
    ∀ a : PyStr, pyStrip a ≠ [] → ts.foldl appendTextArea a = a ++ spaceTail ts := by
  induction ts with
  | nil => intro a _; simp [spaceTail]
  | cons t r ih =>
    intro a ha
    have hstep : appendTextArea a t = a ++ (' ' :: t) := by
      unfold appendTextArea
      rw [if_pos ha]
    have hne : pyStrip (a ++ (' ' :: t)) ≠ [] := pyStrip_append_ne_nil a (' ' :: t) ha
    calc (t :: r).foldl appendTextArea a
        = r.foldl appendTextArea (appendTextArea a t) := rfl
      _ = r.foldl appendTextArea (a ++ (' ' :: t)) := by rw [hstep]
      _ = (a ++ (' ' :: t)) ++ spaceTail r := ih (a ++ (' ' :: t)) hne
      _ = a ++ spaceTail (t :: r) := by rw [List.append_assoc]; rfl

lemma spaceJoin_cons (t : PyStr) (r : List PyStr) :
    spaceJoin (t :: r) = t ++ spaceTail r := by
  induction r generalizing t with
  | nil => simp [spaceJoin, spaceTail]
  | cons u v ih =>
    show spaceJoin (t :: u :: v) = t ++ spaceTail (u :: v)
    rw [show spaceJoin (t :: u :: v) = t ++ (' ' :: spaceJoin (u :: v)) from rfl, ih u]
    rfl

lemma combineFrames_foldl (r : Int) (w : Nat) (buf : List AudioClip) :
    ∀ d : List Nat, ∀ n : Nat,
      buf.foldl
        (fun acc f =>
          if f.sample_rate ≠ r ∨ f.sample_width ≠ w then (acc.1, acc.2 + 1)
          else (acc.1 ++ f.frame_data, acc.2))
        (d, n)
      = (d ++ concatData
            (buf.filter fun f => decide (f.sample_rate = r ∧ f.sample_width = w)),
         n + (buf.filter fun f => decide (¬ (f.sample_rate = r ∧ f.sample_width = w))).length) := by
  induction buf with
  | nil => intro d n; simp [concatData]
  | cons f rest ih =>
    intro d n
    by_cases hf : f.sample_rate = r ∧ f.sample_width = w
    · have hcond : ¬ (f.sample_rate ≠ r ∨ f.sample_width ≠ w) := by
        push_neg
        exact hf
      simp only [List.foldl_cons]
      rw [if_neg hcond, ih (d ++ f.frame_data) n]
      simp [List.filter_cons, hf, concatData, List.append_assoc]
    · have hcond : f.sample_rate ≠ r ∨ f.sample_width ≠ w := by
        by_contra hc
        push_neg at hc
        exact hf hc
      simp only [List.foldl_cons]
      rw [if_pos hcond, ih d (n + 1)]
      simp only [List.filter_cons]
      rw [if_neg (by simp [hf]), if_pos (by simp [hf])]
      simp only [List.length_cons, Prod.mk.injEq]
      exact ⟨trivial, by omega⟩

lemma combineFrames_eq (r : Int) (w : Nat) (buf : List AudioClip) :
    combineFrames r w buf
      = (concatData (buf.filter fun f => decide (f.sample_rate = r ∧ f.sample_width = w)),
         (buf.filter fun f => decide (¬ (f.sample_rate = r ∧ f.sample_width = w))).length) := by
  unfold combineFrames
  rw [combineFrames_foldl r w buf [] 0]
  simp

lemma copy_to_clipboard_fields (b : Bool) (s : AppState) :
    (copy_to_clipboard b s).text_area = s.text_area
      ∧ (copy_to_clipboard b s).is_recording = s.is_recording
      ∧ (copy_to_clipboard b s).auto_copy = s.auto_copy := by
  unfold copy_to_clipboard
  split <;> exact ⟨rfl, rfl, rfl⟩

lemma append_text_fields (t : PyStr) (s : AppState) :
    (append_text t s).text_area = appendTextArea s.text_area t
      ∧ (append_text t s).is_recording = s.is_recording
      ∧ (append_text t s).auto_copy = s.auto_copy := by
  unfold append_text
  split
  · exact ⟨(copy_to_clipboard_fields false _).1, (copy_to_clipboard_fields false _).2.1,
      (copy_to_clipboard_fields false _).2.2⟩
  · exact ⟨rfl, rfl, rfl⟩

lemma iter_preserves_is_recording (ev : IterEvent) (s : AppState) :
    (record_audio_iter ev s).state.is_recording = s.is_recording := by
  cases ev with
  | captured c wav tmp tr =>
    show (process_clip c wav tmp tr _).state.is_recording = s.is_recording
    unfold process_clip
    split
    · rfl
    · split
      · rfl
      · cases wav with
        | structError => rfl
        | ok =>
          cases tmp with
          | createFail => rfl
          | writeFail => rfl
          | vanished => rfl
          | ok =>
            cases tr with
            | ok t => exact (append_text_fields t _).2.1
            | fileNotFound => rfl
            | err msg lm => cases lm <;> rfl
  | listenTimeout => rfl
  | listenUnknown => rfl
  | listenRequestError => rfl
  | listenOSError => rfl
  | listenOtherError => rfl

lemma iter_captured_valid_ok (c : AudioClip) (t : PyStr) (s : AppState)
    (hv : clipFormatValid c) :
    (record_audio_iter (.captured c .ok .ok (.ok t)) s).ctl = .cont
      ∧ (record_audio_iter (.captured c .ok .ok (.ok t)) s).state.text_area
          = appendTextArea s.text_area t
      ∧ (record_audio_iter (.captured c .ok .ok (.ok t)) s).state.auto_copy = s.auto_copy := by
  obtain ⟨hw, hr0, hr1⟩ := hv
  have h1 : ¬ ¬ (c.sample_width = 1 ∨ c.sample_width = 2 ∨ c.sample_width = 4) :=
    not_not_intro hw
  have h2 : ¬ (c.sample_rate ≤ 0 ∨ 192000 < c.sample_rate) := by
    push_neg
    exact ⟨hr0, hr1⟩
  simp only [record_audio_iter, process_clip]
  rw [if_neg h1, if_neg h2]
  refine ⟨rfl, ?_, ?_⟩
  · exact (append_text_fields t _).1
  · exact (append_text_fields t _).2.2

lemma loop_captured_valid_ok (engine : AudioClip → PyStr) (clips : List AudioClip) :
    ∀ s : AppState, s.is_recording = true →
      (∀ c ∈ clips, clipFormatValid c) →
      (record_audio_loop
          (clips.map fun c => IterEvent.captured c .ok .ok (.ok (engine c))) s).1.text_area
        = clips.foldl (fun a c => appendTextArea a (engine c)) s.text_area := by
  induction clips with
  | nil => intro s _ _; rfl
  | cons c rest ih =>
    intro s hrec hvalid
    have hv : clipFormatValid c := hvalid c (List.mem_cons_self c rest)
    have hiter := iter_captured_valid_ok c (engine c) s hv
    show (record_audio_loop
        (IterEvent.captured c .ok .ok (.ok (engine c))
          :: rest.map fun c => IterEvent.captured c .ok .ok (.ok (engine c))) s).1.text_area = _
    unfold record_audio_loop
    rw [if_pos hrec]
    rcases hctl : (record_audio_iter (.captured c .ok .ok (.ok (engine c))) s).ctl with _ | _
    · simp only [hctl]
      have hrec2 : (record_audio_iter (.captured c .ok .ok (.ok (engine c))) s).state.is_recording
          = true := by
        rw [iter_preserves_is_recording]; exact hrec
      rw [ih _ hrec2 (fun x hx => hvalid x (List.mem_cons_of_mem c hx))]
      rw [hiter.2.1]
      rfl
    · exact absurd (hiter.1.symm.trans hctl) (by simp)

lemma process_clip_cont (c : AudioClip) (wav : WavOutcome) (tmp : TempOutcome)
    (tr : TransResult) (s : AppState) :
    (process_clip c wav tmp tr s).ctl = .cont := by
  unfold process_clip
  split
  · rfl
  · split
    · rfl
    · cases wav with
      | structError => rfl
      | ok =>
        cases tmp with
        | createFail => rfl
        | writeFail => rfl
        | vanished => rfl
        | ok =>
          cases tr with
          | ok t => rfl
          | fileNotFound => rfl
          | err msg lm => cases lm <;> rfl

/-! ### Concrete fixtures for witnesses and counterexamples -/

def baseState : AppState :=
  { is_recording := false, record_btn_text := "Начать запись", indicator_fill := "gray",
    status := "Готов к записи", audio_buffer := [], text_area := [], clipboard := [],
    auto_copy := true, language := "ru-RU", error_shown := false }

def recState : AppState := { baseState with is_recording := true }

def priorTextState : AppState := { baseState with text_area := ['o', 'l', 'd'] }

def clipValid1 : AudioClip := ⟨16000, 2, [1, 2]⟩

def clipValid2 : AudioClip := ⟨16000, 2, [3]⟩

def clipBadWidth : AudioClip := ⟨16000, 3, [1]⟩

def clipOtherRate : AudioClip := ⟨8000, 2, [9]⟩

def clipEmptyData : AudioClip := ⟨16000, 2, []⟩

def engineConst : Int → Nat → List Nat → TransResult := fun _ _ _ => .ok ['h', 'i']

def engineData : AudioClip → PyStr := fun c => if c.frame_data = [] then [] else ['x']

def mismatchState : AppState := { baseState with audio_buffer := [clipValid1, clipOtherRate] }

/-! ### Claims -/

/-- Claim C1: for every captured clip whose sample width is not in
{1, 2, 4} or whose sample rate is outside (0, 192000], the capture-loop
iteration and the buffer transcription path (when such a clip heads the
buffer) skip without ever invoking the transcription engine. -/
theorem C1_format_validation_blocks_engine :
    (∀ (c : AudioClip) (wav : WavOutcome) (tmp : TempOutcome) (tr : TransResult) (s : AppState),
        ¬ clipFormatValid c →
          (record_audio_iter (.captured c wav tmp tr) s).engineCalled = false
            ∧ (record_audio_iter (.captured c wav tmp tr) s).ctl = .cont)
      ∧ (∀ (engine : Int → Nat → List Nat → TransResult) (staging : StageOutcome)
          (s : AppState) (first : AudioClip),
          s.audio_buffer.head? = some first → ¬ clipFormatValid first →
            (transcribe_audio_buffer engine staging s).engineCalled = false) := by
  constructor
  · intro c wav tmp tr s hinv
    simp only [record_audio_iter, process_clip]
    by_cases hw : c.sample_width = 1 ∨ c.sample_width = 2 ∨ c.sample_width = 4
    · have hrate : c.sample_rate ≤ 0 ∨ 192000 < c.sample_rate := by
        by_contra hc
        push_neg at hc
        exact hinv ⟨hw, hc.1, hc.2⟩
      rw [if_neg (not_not_intro hw), if_pos hrate]
      exact ⟨rfl, rfl⟩
    · rw [if_pos hw]
      exact ⟨rfl, rfl⟩
  · intro engine staging s first hhead hinv
    unfold transcribe_audio_buffer
    split
    · rfl
    · rename_i f tail hb
      rw [hb] at hhead
      have hf : f = first := by simpa using hhead
      subst hf
      by_cases hw : f.sample_width = 1 ∨ f.sample_width = 2 ∨ f.sample_width = 4
      · have hrate : f.sample_rate ≤ 0 ∨ 192000 < f.sample_rate := by
          by_contra hc
          push_neg at hc
          exact hinv ⟨hw, hc.1, hc.2⟩
        rw [if_neg (not_not_intro hw), if_pos hrate]
      · rw [if_pos hw]

/-- Witness for C1 at a concrete invalid clip (sample width 3). -/
theorem C1_witness :
    ¬ clipFormatValid clipBadWidth
      ∧ (record_audio_iter
          (.captured clipBadWidth .ok .ok (.ok ['h'])) recState).engineCalled = false
      ∧ (transcribe_audio_buffer engineConst .ok
          { baseState with audio_buffer := [clipBadWidth] }).engineCalled = false := by
  refine ⟨by decide, ?_, ?_⟩
  · exact (C1_format_validation_blocks_engine.1 clipBadWidth .ok .ok (.ok ['h'])
      recState (by decide)).1
  · exact C1_format_validation_blocks_engine.2 engineConst .ok
      { baseState with audio_buffer := [clipBadWidth] } clipBadWidth rfl (by decide)

/-- Claim C2: capture timeout, unrecognized speech, recognition-request
errors and every outcome of processing a captured clip (including all
transcription failures) continue the loop with is_recording still true;
only an OSError or an unclassified exception raised while listening
breaks the loop. -/
theorem C2_error_isolation :
    ∀ s : AppState, s.is_recording = true →
      ((record_audio_iter .listenTimeout s).ctl = .cont
          ∧ (record_audio_iter .listenTimeout s).state.is_recording = true)
        ∧ ((record_audio_iter .listenUnknown s).ctl = .cont
          ∧ (record_audio_iter .listenUnknown s).state.is_recording = true)
        ∧ ((record_audio_iter .listenRequestError s).ctl = .cont
          ∧ (record_audio_iter .listenRequestError s).state.is_recording = true)
        ∧ (∀ (c : AudioClip) (wav : WavOutcome) (tmp : TempOutcome) (tr : TransResult),
            (record_audio_iter (.captured c wav tmp tr) s).ctl = .cont
              ∧ (record_audio_iter (.captured c wav tmp tr) s).state.is_recording = true)
        ∧ (record_audio_iter .listenOSError s).ctl = .brk
        ∧ (record_audio_iter .listenOtherError s).ctl = .brk := by
  intro s hrec
  refine ⟨⟨rfl, ?_⟩, ⟨rfl, ?_⟩, ⟨rfl, ?_⟩, ?_, rfl, rfl⟩
  · exact (iter_preserves_is_recording .listenTimeout s).trans hrec
  · exact (iter_preserves_is_recording .listenUnknown s).trans hrec
  · exact (iter_preserves_is_recording .listenRequestError s).trans hrec
  · intro c wav tmp tr
    exact ⟨process_clip_cont c wav tmp tr _,
      (iter_preserves_is_recording (.captured c wav tmp tr) s).trans hrec⟩

/-- Witness for C2 at a concrete recording state: a transcription
failure continues, a listen-phase OSError breaks. -/
theorem C2_witness :
    ((record_audio_iter
        (.captured clipValid1 .ok .ok (.err ("boom") false)) recState).ctl = .cont
      ∧ (record_audio_iter
        (.captured clipValid1 .ok .ok (.err ("boom") false)) recState).state.is_recording = true)
      ∧ (record_audio_iter .listenOSError recState).ctl = .brk :=
  ⟨(C2_error_isolation recState rfl).2.2.2.1 clipValid1 .ok .ok (.err ("boom") false),
   (C2_error_isolation recState rfl).2.2.2.2.1⟩

/-- Claim C6: refuted on the code — when NamedTemporaryFile creates
the staging WAV but the write into it fails, the iteration exits with
the created file still on disk (record_audio lines 397-403: the except
continues with no unlink), and likewise the combined-buffer path
(lines 537-539: temp_filename stays unbound, so the finally's locals()
guard skips the unlink).  The code is evaluated here at that failing
input, contradicting the claimed deletion on every exit path. -/
theorem C6_temp_file_leak :
    ((record_audio_iter
        (.captured clipValid1 .ok .writeFail (.ok ['h'])) recState).tempCreated = true
      ∧ (record_audio_iter
        (.captured clipValid1 .ok .writeFail (.ok ['h'])) recState).tempLeft = true)
      ∧ ((transcribe_audio_buffer engineConst
          (.writeFail ("No space left on device")) mismatchState).tempCreated = true
        ∧ (transcribe_audio_buffer engineConst
          (.writeFail ("No space left on device")) mismatchState).tempLeft = true) := by
  exact ⟨⟨rfl, rfl⟩, ⟨rfl, rfl⟩⟩

/-- Claim C7: if device open or ambient-noise calibration fails at the
start of a session, the error is reported, the state returns to idle
(is_recording false, status, indicator and button reset) and the worker
returns with zero loop iterations run, whatever events were pending. -/
theorem C7_calibration_failure_idle :
    ∀ (evs : List IterEvent) (s : AppState),
      (record_audio false evs s).state.is_recording = false
        ∧ (record_audio false evs s).state.status = "Готов к записи"
        ∧ (record_audio false evs s).state.indicator_fill = "gray"
        ∧ (record_audio false evs s).state.record_btn_text = "Начать запись"
        ∧ (record_audio false evs s).state.error_shown = true
        ∧ (record_audio false evs s).iters = 0 := by
  intro evs s
  exact ⟨rfl, rfl, rfl, rfl, rfl, rfl⟩

/-- Claim C8: the engine language hint is the mapped short code for the
five known locale tags and "en" for every other tag. -/
theorem C8_language_hint :
    get_whisper_language_code "ru-RU" = "ru"
      ∧ get_whisper_language_code "en-US" = "en"
      ∧ get_whisper_language_code "de-DE" = "de"
      ∧ get_whisper_language_code "fr-FR" = "fr"
      ∧ get_whisper_language_code "es-ES" = "es"
      ∧ ∀ lang : String,
          lang ∉ (["ru-RU", "en-US", "de-DE", "fr-FR", "es-ES"] : List String) →
            get_whisper_language_code lang = "en" := by
  refine ⟨by decide, by decide, by decide, by decide, by decide, ?_⟩
  intro lang h
  simp only [List.mem_cons, List.not_mem_nil, or_false, not_or] at h
  obtain ⟨h1, h2, h3, h4, h5⟩ := h
  unfold get_whisper_language_code
  rw [if_neg h1, if_neg h2, if_neg h3, if_neg h4, if_neg h5]

/-- Witness for C8 at a concrete unmapped locale tag. -/
theorem C8_witness : get_whisper_language_code "uk-UA" = "en" :=
  C8_language_hint.2.2.2.2.2 "uk-UA" (by decide)

/-- Claim C10: every start_recording invocation that passes the
microphone-open guard begins the session with an empty audio buffer. -/
theorem C10_buffer_reset_on_start :
    ∀ s : AppState,
      (start_recording true s).audio_buffer = []
        ∧ (start_recording true s).is_recording = true := by
  intro s
  exact ⟨rfl, rfl⟩

lemma capture_fold_buffer (clips : List AudioClip) :
    ∀ s : AppState,
      (clips.foldl buffer_capture_step s).audio_buffer
        = s.audio_buffer ++ clips.filter (fun c => decide (clipFormatValid c)) := by
  induction clips with
  | nil => intro s; simp
  | cons c rest ih =>
    intro s
    by_cases hc : clipFormatValid c
    · simp only [List.foldl_cons, buffer_capture_step, if_pos hc, List.filter_cons]
      rw [ih]
      simp [hc, List.append_assoc]
    · simp only [List.foldl_cons, buffer_capture_step, if_neg hc, List.filter_cons]
      rw [ih]
      simp [hc]

/-- Claim C9: in the combined transcription, every buffered frame whose
rate or width differs from the first frame's is dropped with a logged
warning, the concatenation proceeds with the matching frames, and the
engine is still invoked — a mismatched frame never aborts the combined
transcription. -/
theorem C9_mismatched_frames_dropped :
    ∀ (engine : Int → Nat → List Nat → TransResult) (s : AppState)
      (first : AudioClip) (rest : List AudioClip),
      s.audio_buffer = first :: rest → clipFormatValid first →
        (transcribe_audio_buffer engine .ok s).engineCalled = true
          ∧ (transcribe_audio_buffer engine .ok s).engineInput
            = some (first.sample_rate, first.sample_width,
                concatData ((first :: rest).filter fun f =>
                  decide (f.sample_rate = first.sample_rate
                    ∧ f.sample_width = first.sample_width)))
          ∧ (transcribe_audio_buffer engine .ok s).dropWarnings
            = ((first :: rest).filter fun f =>
                decide (¬ (f.sample_rate = first.sample_rate
                  ∧ f.sample_width = first.sample_width))).length := by
  intro engine s first rest hbuf hv
  obtain ⟨hw, hr0, hr1⟩ := hv
  simp only [transcribe_audio_buffer, hbuf]
  rw [if_neg (not_not_intro hw), if_neg (by push_neg; exact ⟨hr0, hr1⟩)]
  simp only [combineFrames_eq]
  split <;> exact ⟨rfl, rfl, rfl⟩

/-- Witness for C9: a buffer whose second frame has a different sample
rate; the engine is invoked on the first frame's bytes only and one
warning is logged. -/
theorem C9_witness :
    (transcribe_audio_buffer engineConst .ok mismatchState).engineCalled = true
      ∧ (transcribe_audio_buffer engineConst .ok mismatchState).engineInput
        = some ((16000 : Int), 2, [1, 2])
      ∧ (transcribe_audio_buffer engineConst .ok mismatchState).dropWarnings = 1 := by
  have h := C9_mismatched_frames_dropped engineConst mismatchState clipValid1 [clipOtherRate]
    rfl (by decide)
  refine ⟨h.1, ?_, ?_⟩
  · rw [h.2.1]; decide
  · rw [h.2.2]; decide

/-- Claim C3 as stated fails for a session in which no clip was
captured: the buffer is empty at stop, the engine is never invoked and
the prior text is not replaced, so no combined transcript is produced. -/
theorem C3_counterexample :
    (buffer_mode_session engineConst .ok [] priorTextState).engineCalled = false
      ∧ (buffer_mode_session engineConst .ok [] priorTextState).state.text_area
        = ['o', 'l', 'd'] := by
  exact ⟨rfl, rfl⟩

/-- Claim C3 (amended): for every buffer-mode session ended by the stop
command in which at least one valid clip was captured and the staging
and engine invocation succeed, exactly one combined transcript is
produced; it replaces any prior text (and mirrors to the clipboard),
and it equals the engine's transcription of the concatenated frame
data of all buffered frames whose rate and width match the first
frame's. -/
theorem C3_buffer_mode_combined :
    ∀ (engine : Int → Nat → List Nat → TransResult) (clips : List AudioClip)
      (s : AppState) (first : AudioClip) (rest : List AudioClip) (t : PyStr),
      clips.filter (fun c => decide (clipFormatValid c)) = first :: rest →
      engine first.sample_rate first.sample_width
          (concatData ((first :: rest).filter fun f =>
            decide (f.sample_rate = first.sample_rate
              ∧ f.sample_width = first.sample_width))) = .ok t →
        (buffer_mode_session engine .ok clips s).engineCalled = true
          ∧ (buffer_mode_session engine .ok clips s).state.text_area = t
          ∧ (buffer_mode_session engine .ok clips s).state.clipboard = t := by
  intro engine clips s first rest t hfilter hengine
  have hvfirst : clipFormatValid first := by
    have hmem : first ∈ clips.filter (fun c => decide (clipFormatValid c)) := by
      rw [hfilter]
      exact List.mem_cons_self first rest
    simpa using List.of_mem_filter hmem
  obtain ⟨hw, hr0, hr1⟩ := hvfirst
  have hbuf : (finish_recording
      (clips.foldl buffer_capture_step (start_recording true s))).audio_buffer
        = first :: rest := by
    show (clips.foldl buffer_capture_step (start_recording true s)).audio_buffer = first :: rest
    rw [capture_fold_buffer]
    show (start_recording true s).audio_buffer ++ _ = _
    rw [show (start_recording true s).audio_buffer = [] from rfl, hfilter]
    rfl
  unfold buffer_mode_session
  simp only [transcribe_audio_buffer, hbuf]
  rw [if_neg (not_not_intro hw), if_neg (by push_neg; exact ⟨hr0, hr1⟩)]
  simp only [combineFrames_eq]
  rw [hengine]
  exact ⟨rfl, rfl, rfl⟩

/-- Witness for C3 (amended) at a concrete two-clip session with prior
text: one combined transcript replaces the old text. -/
theorem C3_witness :
    (buffer_mode_session engineConst .ok
          [clipValid1, clipOtherRate] priorTextState).engineCalled = true
      ∧ (buffer_mode_session engineConst .ok
          [clipValid1, clipOtherRate] priorTextState).state.text_area = ['h', 'i']
      ∧ (buffer_mode_session engineConst .ok
          [clipValid1, clipOtherRate] priorTextState).state.clipboard = ['h', 'i'] :=
  C3_buffer_mode_combined engineConst [clipValid1, clipOtherRate] priorTextState
    clipValid1 [clipOtherRate] ['h', 'i'] (by decide) (by decide)

/-- Claim C4 as stated fails when the first clip's text is empty: the
separating space is omitted, so the visible text differs from the
space-joined concatenation. -/
theorem C4_counterexample :
    (record_audio true ([clipEmptyData, clipValid2].map fun c =>
        IterEvent.captured c .ok .ok (.ok (engineData c))) recState).state.text_area = ['x']
      ∧ spaceJoin ([clipEmptyData, clipValid2].map engineData) = [' ', 'x']
      ∧ (['x'] : PyStr) ≠ [' ', 'x'] := by
  exact ⟨rfl, rfl, by decide⟩

/-- Claim C4 (amended): in incremental mode, for a fixed sequence of
valid clips each producing a deterministic per-clip text, the visible
transcript after the session equals the space-joined concatenation of
the per-clip texts in capture order, provided the first clip's text is
not whitespace-only. -/
theorem C4_space_joined :
    ∀ (engine : AudioClip → PyStr) (clips : List AudioClip) (s : AppState),
      s.is_recording = true → s.text_area = [] →
      (∀ c ∈ clips, clipFormatValid c) →
      (∀ hd, clips.head? = some hd → pyStrip (engine hd) ≠ []) →
        (record_audio true
            (clips.map fun c => IterEvent.captured c .ok .ok (.ok (engine c))) s).state.text_area
          = spaceJoin (clips.map engine) := by
  intro engine clips s hrec harea hvalid hfirst
  unfold record_audio
  rw [if_pos rfl]
  show (record_audio_loop (clips.map fun c => IterEvent.captured c .ok .ok (.ok (engine c)))
      { s with status := "Калибровка микрофона..." }).1.text_area = _
  rw [loop_captured_valid_ok engine clips
    { s with status := "Калибровка микрофона..." } hrec hvalid]
  show clips.foldl (fun a c => appendTextArea a (engine c)) s.text_area = _
  rw [harea, ← List.foldl_map engine appendTextArea clips]
  cases hc : clips with
  | nil => rfl
  | cons c cs =>
    have ht : pyStrip (engine c) ≠ [] := hfirst c (by rw [hc]; rfl)
    simp only [List.map_cons, List.foldl_cons]
    rw [show appendTextArea [] (engine c) = engine c by
          simp [appendTextArea, pyStrip],
        foldl_appendTextArea (cs.map engine) (engine c) ht, spaceJoin_cons]

/-- Witness for C4 (amended) at a two-clip session with nonempty texts. -/
theorem C4_witness :
    (record_audio true ([clipValid1, clipValid2].map fun c =>
        IterEvent.captured c .ok .ok (.ok (engineData c))) recState).state.text_area
      = spaceJoin ([clipValid1, clipValid2].map engineData) :=
  C4_space_joined engineData [clipValid1, clipValid2] recState rfl rfl (by decide)
    (fun hd h => by
      have : hd = clipValid1 := by simpa using h.symm
      rw [this]
      decide)

/-- Claim C5 as stated fails when the appended text carries leading
whitespace (as engine output typically does): the clipboard receives
the stripped text while the visible area keeps the raw text. -/
theorem C5_counterexample :
    (append_text [' ', 'a'] baseState).clipboard = ['a']
      ∧ (append_text [' ', 'a'] baseState).text_area = [' ', 'a']
      ∧ (append_text [' ', 'a'] baseState).clipboard
          ≠ (append_text [' ', 'a'] baseState).text_area := by
  exact ⟨rfl, rfl, by decide⟩

lemma append_text_clipboard (t : PyStr) (s : AppState) (hauto : s.auto_copy = true) :
    (append_text t s).clipboard
      = if pyStrip (appendTextArea s.text_area t) = [] then s.clipboard
        else pyStrip (appendTextArea s.text_area t) := by
  unfold append_text copy_to_clipboard
  rw [hauto, if_pos rfl]
  by_cases h : pyStrip (appendTextArea s.text_area t) = []
  · rw [if_neg (not_not_intro h), if_pos h]
  · rw [if_pos h, if_neg h]

/-- Claim C5 (amended): after a successful auto-copy-enabled
incremental append whose resulting visible text is not whitespace-only,
the clipboard equals the whitespace-stripped visible transcript; after
a combined result, the clipboard equals the visible transcript exactly. -/
theorem C5_clipboard_mirror :
    (∀ (s : AppState) (t : PyStr), s.auto_copy = true →
        pyStrip ((append_text t s).text_area) ≠ [] →
          (append_text t s).clipboard = pyStrip ((append_text t s).text_area))
      ∧ (∀ (s : AppState) (t : PyStr),
          (display_transcription_result t s).clipboard
            = (display_transcription_result t s).text_area) := by
  constructor
  · intro s t hauto hne
    rw [(append_text_fields t s).1] at hne ⊢
    rw [append_text_clipboard t s hauto, if_neg hne]
  · intro s t
    rfl

/-- Witness for C5 (amended) at concrete inputs. -/
theorem C5_witness :
    (append_text ['a'] baseState).clipboard = pyStrip ((append_text ['a'] baseState).text_area)
      ∧ (display_transcription_result ['a'] baseState).clipboard
        = (display_transcription_result ['a'] baseState).text_area :=
  ⟨C5_clipboard_mirror.1 baseState ['a'] rfl (by decide),
   C5_clipboard_mirror.2 baseState ['a']⟩

end VoiceTranscriber
